import Mathlib

/-!
Shallow embedding of the persistence layer (db.js) and the offline cache
controller (the service worker part of the same source file) of the
car_dispatch repository.  Pure Lean functions model the JavaScript
functions; the asynchronous platform behaviour (IndexedDB transactions,
promise settlement, the Cache API) is made explicit as state passing,
outcome oracles and event traces.  Every definition is translated from
src/db.js; the few definitions that render the specification's own
vocabulary (for comparison with the code) say so in their doc comment.
-/

namespace CarApp

/-- Outcome of an asynchronous JavaScript operation as surfaced through the
promise wrappers in db.js: resolved with a value, or rejected with an error
message. -/
abbrev JSResult (α : Type) := Except String α

/-! ## Connection manager (db.js lines 10-66, 261-294) -/

/-- Module-level state of the connection manager.  `dbPromise` (db.js line
10) holds the id of the memoized open promise when one exists (`null`
otherwise); `opens` counts the platform opens issued so far
(`indexedDB.open`, line 18) and doubles as the id handed to the next
promise created. -/
structure ConnState where
  dbPromise : Option Nat
  opens : Nat
  deriving DecidableEq

/-- Initial module state: `dbPromise = null`, no platform open issued yet. -/
def initConn : ConnState := ⟨none, 0⟩

/-- getDB (db.js lines 13-66).  If a memoized promise exists it is returned
unchanged (lines 14-16); otherwise exactly one platform open is issued, the
fresh promise is stored in `dbPromise` and returned (lines 17-65).  The
returned Nat is the identity of the promise handed to the caller. -/
def getDB (s : ConnState) : Nat × ConnState :=
  match s.dbPromise with
  | some p => (p, s)
  | none => (s.opens, ⟨some s.opens, s.opens + 1⟩)

/-- Runs n successive getDB calls by a single caller, collecting the
promise each call hands out, together with the final module state. -/
def runGetDB : Nat → ConnState → List Nat × ConnState
  | 0, s => ([], s)
  | n + 1, s =>
    let r := getDB s
    let rest := runGetDB n r.2
    (r.1 :: rest.1, rest.2)

/-- Settled outcome of the open promise with id `pid`, drawn from an oracle
list of platform outcomes (db.js lines 20-28, 60-63: the promise rejects on
`onerror` or `onblocked` and resolves on `onsuccess`).  Ids beyond the
oracle default to success. -/
def promiseOutcome (results : List (JSResult Unit)) (pid : Nat) : JSResult Unit :=
  results.getD pid (.ok ())

/-- performTransaction (db.js lines 69-93): it first awaits `getDB()`; when
the memoized promise is rejected the `await` rethrows, so the whole CRUD
operation rejects with the same error and nothing else runs. -/
def performTransaction (results : List (JSResult Unit)) (s : ConnState) :
    JSResult Unit × ConnState :=
  let r := getDB s
  match promiseOutcome results r.1 with
  | .error e => (.error e, r.2)
  | .ok _ => (.ok (), r.2)

/-- clearDatabase (db.js lines 261-294): best-effort close of the open
handle (errors ignored, lines 263-269) and reset of the memoized promise to
`null` (line 270) before issuing the destructive platform delete. -/
def clearDatabase (s : ConnState) : ConnState := ⟨none, s.opens⟩

/-! ## Snapshot collections: SavedStates and SavedParking
(db.js lines 160-258) -/

/-- Record stored in SavedStates / SavedParking: an auto-incremented
integer `id` (the primary key), a `name`, an opaque payload and a
`timestamp` (db.js lines 161-165 and 214-218).  `payload` stands for the
`state` field of a SavedStates record and the `parking` field of a
SavedParking record; the code never inspects it, so it is modelled as a
Nat. -/
structure SnapRec where
  id : Nat
  name : String
  payload : Nat
  timestamp : Nat
  deriving DecidableEq

/-- One snapshot collection: its records plus the auto-increment counter
supplying the next primary key. -/
structure SnapStore where
  recs : List SnapRec
  nextId : Nat
  deriving DecidableEq

/-- The `add` of a freshly built snapshot record (db.js lines 161-167 /
214-220): the record receives the next auto-increment key. -/
def addSnap (s : SnapStore) (nm : String) (p ts : Nat) : SnapStore :=
  ⟨s.recs ++ [⟨s.nextId, nm, p, ts⟩], s.nextId + 1⟩

/-- Visit order of an IndexedDB cursor opened on the `timestamp` index with
direction `prev` (db.js line 175 / 228): record a is visited before record
b iff a's (timestamp, primary key) pair is lexicographically greater. -/
def keyGt (a b : SnapRec) : Bool :=
  b.timestamp < a.timestamp || (a.timestamp == b.timestamp && b.id < a.id)

/-- Insertion step of the cursor-order sort. -/
def insertCursor (r : SnapRec) : List SnapRec → List SnapRec
  | [] => [r]
  | x :: xs => if keyGt x r then x :: insertCursor r xs else r :: x :: xs

/-- The full sequence of records as visited by the descending `timestamp`
index cursor (db.js line 175 / 228). -/
def cursorOrder : List SnapRec → List SnapRec
  | [] => []
  | r :: rs => insertCursor r (cursorOrder rs)

/-- The eviction loop body (db.js lines 178-189 / 230-241): walk the
cursor-ordered records with a running count starting at 0; each visited
record increments the count and is deleted when the incremented count
exceeds `limit` (`if (count > limit) store.delete(...)`).  The result is
the list of surviving records in visit order. -/
def trimPass (limit : Int) : Int → List SnapRec → List SnapRec
  | _, [] => []
  | count, r :: rs =>
    if limit < count + 1 then trimPass limit (count + 1) rs
    else r :: trimPass limit (count + 1) rs

/-- saveState / saveParking (db.js lines 160-202 / 213-246), the bounded
history writer.  `addOk` is the outcome of the initial awaited `add` (line
167 / 220): when it is false the `await` throws, the call rejects and the
eviction transaction is never opened, leaving the store untouched.  When
the add succeeds, a fresh write transaction walks the descending timestamp
cursor and deletes every record whose visit rank exceeds `limit`. -/
def saveSnapshot (limit : Int) (nm : String) (p ts : Nat) (addOk : Bool)
    (s : SnapStore) : JSResult Unit × SnapStore :=
  if addOk then
    let s1 := addSnap s nm p ts
    (.ok (), ⟨trimPass limit 0 (cursorOrder s1.recs), s1.nextId⟩)
  else
    (.error "add failed", s)

/-- saveState (db.js lines 160-202): saveSnapshot on the SavedStates
collection, retention limit defaulting to 5. -/
def saveState (stateData : Nat) (nm : String) (ts : Nat) (addOk : Bool)
    (s : SnapStore) (limit : Int := 5) : JSResult Unit × SnapStore :=
  saveSnapshot limit nm stateData ts addOk s

/-- saveParking (db.js lines 213-246): saveSnapshot on the SavedParking
collection, retention limit defaulting to 20. -/
def saveParking (parkingData : Nat) (nm : String) (ts : Nat) (addOk : Bool)
    (s : SnapStore) (limit : Int := 20) : JSResult Unit × SnapStore :=
  saveSnapshot limit nm parkingData ts addOk s

/-- Arguments of one saveSnapshot call in a sequence issued by a single
caller: the record's name, payload and timestamp, and the outcome of its
initial add. -/
structure SaveCall where
  nm : String
  payload : Nat
  ts : Nat
  addOk : Bool
  deriving DecidableEq

/-- A sequence of saveSnapshot calls with a fixed retention limit, executed
by a single caller with no interleaving. -/
def runSaves (limit : Int) : List SaveCall → SnapStore → SnapStore
  | [], s => s
  | c :: cs, s => runSaves limit cs (saveSnapshot limit c.nm c.payload c.ts c.addOk s).2

/-- Stable insertion step for the read-time sort by timestamp descending. -/
def insertTsDesc (r : SnapRec) : List SnapRec → List SnapRec
  | [] => [r]
  | x :: xs => if r.timestamp < x.timestamp then x :: insertTsDesc r xs else r :: x :: xs

/-- The JavaScript `sort((a, b) => b.timestamp - a.timestamp)` (db.js line
209 / 257): a stable sort of the raw result set by timestamp descending. -/
def sortTsDesc : List SnapRec → List SnapRec
  | [] => []
  | r :: rs => insertTsDesc r (sortTsDesc rs)

/-- getAllSavedStates (db.js lines 207-210): getAll on SavedStates followed
by the read-time descending sort; the stored records are not modified. -/
def getAllSavedStates (s : SnapStore) : List SnapRec := sortTsDesc s.recs

/-- getAllSavedParking (db.js lines 255-258): getAll on SavedParking
followed by the read-time descending sort. -/
def getAllSavedParking (s : SnapStore) : List SnapRec := sortTsDesc s.recs

/-! ## bulkAdd (db.js lines 114-141) -/

/-- A keyed record of a plain collection (Families or Cars): key and
value. -/
abbrev Item := Nat × Nat

/-- Whether the collection already holds a record under key k. -/
def hasKey (store : List Item) (k : Nat) : Bool :=
  store.any (fun r => r.1 == k)

/-- One `store.add(item)` request inside the bulkAdd transaction (db.js
line 122): it fails with a ConstraintError when the key already exists,
otherwise it appends the record. -/
def addItem (store : List Item) (it : Item) : JSResult (List Item) :=
  if hasKey store it.1 then .error "ConstraintError" else .ok (store ++ [it])

/-- The adds issued by bulkAdd in list order within one transaction (db.js
lines 120-126); the first failing add surfaces its error. -/
def bulkAddRun : List Item → List Item → JSResult (List Item)
  | store, [] => .ok store
  | store, it :: rest =>
    match addItem store it with
    | .error e => .error e
    | .ok s2 => bulkAddRun s2 rest

/-- bulkAdd (db.js lines 114-141).  A failed add request is not
`preventDefault`-ed, so the platform aborts the enclosing readwrite
transaction and rolls back every add already applied; the call rejects via
the `Promise.all` catch (line 130) and `transaction.onerror` (line 136).
When every add succeeds the transaction commits with all records added. -/
def bulkAdd (store items : List Item) : JSResult Unit × List Item :=
  match bulkAddRun store items with
  | .ok s2 => (.ok (), s2)
  | .error _e => (.error "ConstraintError", store)

/-! ## Eviction-phase promise settlement (db.js lines 174-201 / 227-245) -/

/-- Events delivered, in order, to the handlers registered by the eviction
phase of saveState / saveParking: one `cursorStep` success event per record
visited (cursor non-null), then the final cursor success event with a null
cursor (`cursorDone`), then the transaction's `oncomplete` (`txComplete`).
IndexedDB fires the completion event only after every queued request of
the transaction, so `txComplete` is last. -/
inductive EvictEvent
  | cursorStep
  | cursorDone
  | txComplete
  deriving DecidableEq

/-- The event trace of an eviction pass over a collection holding n
records. -/
def evictTrace (n : Nat) : List EvictEvent :=
  List.replicate n .cursorStep ++ [.cursorDone, .txComplete]

/-- Which handlers call resolve() on the promise returned by the eviction
phase: the null-cursor branch (db.js line 187 / 239) and the
`transaction.oncomplete` handler (line 199 / 244).  The per-record cursor
branch only deletes and continues. -/
def resolvesAt : EvictEvent → Bool
  | .cursorStep => false
  | .cursorDone => true
  | .txComplete => true

/-- Index of the event at which the promise settles: a promise resolves at
the first resolve() call and ignores later ones. -/
def firstResolve : List EvictEvent → Option Nat
  | [] => none
  | e :: es => if resolvesAt e then some 0 else (firstResolve es).map (· + 1)

/-- Index of the transaction-completion event in a trace. -/
def txCompleteIdx : List EvictEvent → Option Nat
  | [] => none
  | e :: es => if e == EvictEvent.txComplete then some 0 else (txCompleteIdx es).map (· + 1)

/-! ## Offline cache controller (service worker part of the source) -/

/-- CACHE_NAME (sw.js line 4). -/
def CACHE_NAME : String := "car-app-cache-v1"

/-- urlsToCache (sw.js lines 8-18): the fixed asset manifest primed at
install time. -/
def urlsToCache : List String :=
  ["./", "./index.html", "./master.html", "./manual.html", "./db.js",
   "./manifest.json", "./icons/icon-192x192.png", "./icons/icon-512x512.png",
   "https://cdn.tailwindcss.com/"]

/-- Outcome of the install step: the entries stored in the versioned cache
bucket, and whether the install step itself completed successfully (the
promise handed to `event.waitUntil` resolved). -/
structure InstallResult where
  cache : List String
  installOk : Bool
  deriving DecidableEq

/-- Platform semantics of `cache.addAll(urls)` (sw.js line 29): atomic — it
resolves with every entry stored when all fetches succeed, and rejects
storing nothing when any fetch fails.  `fetchOk` tells which URLs fetch
successfully. -/
def cacheAddAll (fetchOk : String → Bool) (urls : List String) : JSResult (List String) :=
  if urls.all fetchOk then .ok urls else .error "addAll failed"

/-- The install event listener (sw.js lines 21-35): `waitUntil` receives
`caches.open(...).then(cache => cache.addAll(urlsToCache)).catch(err =>
console.error(...))`.  The trailing catch converts a rejected addAll into a
resolved promise (the error is only logged), so the install step completes
successfully in both branches. -/
def installStep (fetchOk : String → Bool) : InstallResult :=
  match cacheAddAll fetchOk urlsToCache with
  | .ok entries => ⟨entries, true⟩
  | .error _e => ⟨[], true⟩

/-- The one allow-listed cross-origin host of the fetch handler (sw.js
lines 62-63), exactly as the string literal appears in the source. -/
def twCdn : String := "https://cdn.tailwindcss.com"

/-- Leading-segment test on character lists: `listStarts p s` holds when p
is an initial segment of s. -/
def listStarts : List Char → List Char → Bool
  | [], _ => true
  | _ :: _, [] => false
  | a :: as, b :: bs => a == b && listStarts as bs

/-- JavaScript `String.prototype.startsWith` over the code-unit sequences
of the two strings. -/
def jsStartsWith (s pat : String) : Bool := listStarts pat.data s.data

/-- The pass-through guard of the fetch event listener (sw.js lines 62-66):
the handler returns without calling respondWith — leaving the request
untouched, neither answered from the cache nor stored — exactly when the
request URL starts with neither `self.location.origin` nor the literal
"https://cdn.tailwindcss.com". -/
def passesThrough (origin url : String) : Bool :=
  !(jsStartsWith url origin) && !(jsStartsWith url twCdn)

/-- Modelled from the spec: "requests whose origin is neither same-origin
nor the allow-listed cross-origin host".  A request URL has origin o
exactly when it is o itself or o followed by a "/" and the rest of the
URL; this is the spec-side predicate compared against the code's
prefix test. -/
def originMatches (o url : String) : Bool :=
  url == o || jsStartsWith url (o ++ "/")

/-- Concrete application origin used in counterexamples and witnesses. -/
def appOrigin : String := "https://app.example"

/-- A URL on a foreign origin whose text nevertheless begins with the
allow-listed host string. -/
def sneakyUrl : String := "https://cdn.tailwindcss.community/x"

/-- A fetch oracle for which every manifest entry fetches successfully
except the cross-origin CDN entry. -/
def cdnDown : String → Bool := fun u => !(u == "https://cdn.tailwindcss.com/")

/-- Concrete two-record SavedStates store whose records share one
timestamp. -/
def tieStore : SnapStore := ⟨[⟨1, "a", 0, 100⟩, ⟨2, "b", 0, 100⟩], 3⟩

/-! ## Helper lemmas -/

/-- Every character list is a leading segment of itself. -/
theorem listStarts_refl : ∀ l : List Char, listStarts l l = true
  | [] => rfl
  | a :: as => by simp [listStarts, listStarts_refl as]

/-- A leading segment of s stays a leading segment after dropping a
suffix of the pattern. -/
theorem listStarts_append_left : ∀ (a b s : List Char),
    listStarts (a ++ b) s = true → listStarts a s = true
  | [], _, _, _ => rfl
  | _ :: _, _, [], h => by simp [listStarts] at h
  | x :: as, b, y :: ys, h => by
    simp only [List.cons_append, listStarts, Bool.and_eq_true] at h ⊢
    exact ⟨h.1, listStarts_append_left as b ys h.2⟩

/-- Once the running count has reached the limit, the eviction loop deletes
every remaining record. -/
theorem trimPass_of_le (L c : Int) (h : L ≤ c) : ∀ l, trimPass L c l = []
  | [] => rfl
  | _ :: rs => by
    have h1 : L < c + 1 := by omega
    simp only [trimPass, if_pos h1]
    exact trimPass_of_le L (c + 1) (by omega) rs

/-- The eviction loop started at count c keeps exactly the first
(limit - c) records of its input. -/
theorem trimPass_eq_take (L : Int) : ∀ (l : List SnapRec) (c : Int),
    trimPass L c l = l.take (L - c).toNat
  | [], c => by simp [trimPass]
  | r :: rs, c => by
    by_cases h : L < c + 1
    · have h0 : (L - c).toNat = 0 := by omega
      simp only [trimPass, if_pos h, h0, List.take_zero]
      exact trimPass_of_le L (c + 1) (by omega) rs
    · have h1 : (L - c).toNat = (L - (c + 1)).toNat + 1 := by omega
      simp only [trimPass, if_neg h, h1, List.take_succ_cons]
      rw [trimPass_eq_take L rs (c + 1)]

/-- The eviction loop keeps exactly the first `limit` records in cursor
order. -/
theorem trimPass_zero (L : Int) (l : List SnapRec) : trimPass L 0 l = l.take L.toNat := by
  simpa using trimPass_eq_take L l 0

/-- Inserting into the cursor order only permutes. -/
theorem insertCursor_perm (r : SnapRec) : ∀ l, List.Perm (insertCursor r l) (r :: l)
  | [] => List.Perm.refl _
  | x :: xs => by
    by_cases h : keyGt x r
    · simp only [insertCursor, if_pos h]
      exact ((insertCursor_perm r xs).cons x).trans (List.Perm.swap r x xs)
    · simp only [insertCursor, if_neg h]
      exact List.Perm.refl _

/-- The cursor visit order is a permutation of the stored records. -/
theorem cursorOrder_perm : ∀ l, List.Perm (cursorOrder l) l
  | [] => List.Perm.refl _
  | r :: rs => (insertCursor_perm r (cursorOrder rs)).trans ((cursorOrder_perm rs).cons r)

/-- Inserting into the timestamp-descending order only permutes. -/
theorem insertTsDesc_perm (r : SnapRec) : ∀ l, List.Perm (insertTsDesc r l) (r :: l)
  | [] => List.Perm.refl _
  | x :: xs => by
    by_cases h : r.timestamp < x.timestamp
    · simp only [insertTsDesc, if_pos h]
      exact ((insertTsDesc_perm r xs).cons x).trans (List.Perm.swap r x xs)
    · simp only [insertTsDesc, if_neg h]
      exact List.Perm.refl _

/-- The read-time sort is a permutation of the raw result set. -/
theorem sortTsDesc_perm : ∀ l, List.Perm (sortTsDesc l) l
  | [] => List.Perm.refl _
  | r :: rs => (insertTsDesc_perm r (sortTsDesc rs)).trans ((sortTsDesc_perm rs).cons r)

/-- Insertion preserves the weakly-descending-timestamp invariant. -/
theorem insertTsDesc_pairwise (r : SnapRec) :
    ∀ l, List.Pairwise (fun a b => b.timestamp ≤ a.timestamp) l →
      List.Pairwise (fun a b => b.timestamp ≤ a.timestamp) (insertTsDesc r l)
  | [], _ => by simp [insertTsDesc]
  | x :: xs, h => by
    rw [List.pairwise_cons] at h
    by_cases hc : r.timestamp < x.timestamp
    · simp only [insertTsDesc, if_pos hc]
      rw [List.pairwise_cons]
      refine ⟨?_, insertTsDesc_pairwise r xs h.2⟩
      intro b hb
      rcases List.mem_cons.mp ((insertTsDesc_perm r xs).mem_iff.mp hb) with hb | hb
      · rw [hb]; exact le_of_lt hc
      · exact h.1 b hb
    · simp only [insertTsDesc, if_neg hc]
      rw [List.pairwise_cons]
      push_neg at hc
      refine ⟨?_, List.pairwise_cons.mpr h⟩
      intro b hb
      rcases List.mem_cons.mp hb with hb | hb
      · rw [hb]; exact hc
      · exact le_trans (h.1 b hb) hc

/-- The read-time sort yields weakly descending timestamps. -/
theorem sortTsDesc_pairwise :
    ∀ l, List.Pairwise (fun a b => b.timestamp ≤ a.timestamp) (sortTsDesc l)
  | [] => List.Pairwise.nil
  | r :: rs => insertTsDesc_pairwise r _ (sortTsDesc_pairwise rs)

/-- Splitting a sequence of saveSnapshot calls. -/
theorem runSaves_append (L : Int) (xs ys : List SaveCall) :
    ∀ s, runSaves L (xs ++ ys) s = runSaves L ys (runSaves L xs s) := by
  induction xs with
  | nil => intro s; rfl
  | cons c cs ih => intro s; simp only [List.cons_append, runSaves]; exact ih _

/-- Key membership survives appending records. -/
theorem hasKey_append (store ext : List Item) (k : Nat) (h : hasKey store k = true) :
    hasKey (store ++ ext) k = true := by
  simp only [hasKey, List.any_append, Bool.or_eq_true]
  exact Or.inl h

/-- When some listed item collides with a key of the accumulated store, the
chain of adds fails. -/
theorem bulkAddRun_error : ∀ (items store : List Item),
    (∃ it ∈ items, hasKey store it.1 = true) →
    ∃ e, bulkAddRun store items = Except.error e
  | [], _, h => by simp at h
  | it :: rest, store, h => by
    cases hk : hasKey store it.1 with
    | true => exact ⟨"ConstraintError", by simp [bulkAddRun, addItem, hk]⟩
    | false =>
      obtain ⟨w, hw, hwk⟩ := h
      rcases List.mem_cons.mp hw with hwit | hwrest
      · rw [hwit, hk] at hwk
        exact absurd hwk (by simp)
      · rw [show bulkAddRun store (it :: rest) = bulkAddRun (store ++ [it]) rest from by
          simp [bulkAddRun, addItem, hk]]
        exact bulkAddRun_error rest (store ++ [it]) ⟨w, hwrest, hasKey_append _ _ _ hwk⟩

/-- A URL never matching the origin as a string prefix cannot have that
origin. -/
theorem originMatches_false_of (o url : String) (h : jsStartsWith url o = false) :
    originMatches o url = false := by
  unfold originMatches
  rw [Bool.or_eq_false_iff]
  constructor
  · cases hbe : url == o with
    | false => rfl
    | true =>
      exfalso
      have heq : url = o := eq_of_beq hbe
      rw [heq] at h
      rw [show jsStartsWith o o = true from listStarts_refl o.data] at h
      exact Bool.noConfusion h
  · cases hpre : jsStartsWith url (o ++ "/") with
    | false => rfl
    | true =>
      exfalso
      unfold jsStartsWith at hpre h
      rw [String.data_append] at hpre
      rw [listStarts_append_left o.data _ url.data hpre] at h
      exact Bool.noConfusion h

/-- From a memoized state, any run of getDB calls hands out the memoized
promise every time and never changes the state. -/
theorem runGetDB_memoized : ∀ (n : Nat) (s : ConnState) (p : Nat),
    s.dbPromise = some p → runGetDB n s = (List.replicate n p, s)
  | 0, _, _, _ => by simp [runGetDB]
  | n + 1, s, p, h => by
    have hg : getDB s = (p, s) := by simp [getDB, h]
    simp [runGetDB, hg, runGetDB_memoized n s p h, List.replicate_succ]

/-- Unfolding of the eviction event trace. -/
theorem evictTrace_succ (n : Nat) :
    evictTrace (n + 1) = EvictEvent.cursorStep :: evictTrace n := by
  simp [evictTrace, List.replicate_succ]

/-! ## Claim theorems -/

/-- Claim C1: for every sequence of saveSnapshot calls with a fixed
retention limit L (5 for saveState, 20 for saveParking) executed by a
single caller with no interleaving, after any call that completes
successfully (its initial add succeeded) the collection holds at most L
records, whatever the starting store and the earlier calls did. -/
theorem c1_retention_bound (L : Int) (hL : 0 ≤ L) (cs : List SaveCall) (c : SaveCall)
    (hc : c.addOk = true) (s0 : SnapStore) :
    ((runSaves L (cs ++ [c]) s0).recs.length : Int) ≤ L := by
  rw [runSaves_append]
  simp only [runSaves, saveSnapshot, hc, if_true]
  rw [trimPass_zero, List.length_take]
  omega

/-- Witness for C1 at a concrete call sequence with the saveState default
limit 5. -/
theorem c1_retention_witness :
    ((runSaves 5 ([⟨"a", 1, 10, true⟩] ++ [⟨"b", 2, 11, true⟩]) ⟨[], 1⟩).recs.length : Int) ≤ 5 :=
  c1_retention_bound 5 (by decide) [⟨"a", 1, 10, true⟩] ⟨"b", 2, 11, true⟩ rfl ⟨[], 1⟩

/-- Claim C7: when the initial add of the freshly timestamped record fails,
the whole saveSnapshot call rejects and no eviction is performed — the
store is left exactly as it was, for saveState and saveParking alike. -/
theorem c7_failed_add_no_eviction (L : Int) (nm : String) (p ts : Nat) (s : SnapStore) :
    (∃ e, (saveSnapshot L nm p ts false s).1 = Except.error e)
    ∧ (saveSnapshot L nm p ts false s).2 = s
    ∧ (saveState p nm ts false s).2 = s
    ∧ (saveParking p nm ts false s).2 = s :=
  ⟨⟨"add failed", rfl⟩, rfl, rfl, rfl⟩

/-- Claim C8: the eviction pass ranks records by the descending
(timestamp, primary key) cursor order and keeps exactly those whose visit
rank is at most `limit` (deleting exactly the ranks beyond it); with limit
0 or negative everything is deleted, the just-added record included; when
the collection, the new record included, holds no more than `limit`
records, no record is deleted. -/
theorem c8_eviction_rank (L : Int) (nm : String) (p ts : Nat) (s : SnapStore) :
    (∀ l : List SnapRec, trimPass L 0 l = l.take L.toNat)
    ∧ (L ≤ 0 → (saveSnapshot L nm p ts true s).2.recs = [])
    ∧ ((s.recs.length : Int) + 1 ≤ L →
        List.Perm (saveSnapshot L nm p ts true s).2.recs (addSnap s nm p ts).recs) := by
  refine ⟨trimPass_zero L, ?_, ?_⟩
  · intro hL
    have h0 : L.toNat = 0 := by omega
    simp [saveSnapshot, trimPass_zero, h0]
  · intro hlen
    have hperm := cursorOrder_perm (addSnap s nm p ts).recs
    have hlen2 : (cursorOrder (addSnap s nm p ts).recs).length = s.recs.length + 1 := by
      rw [hperm.length_eq]
      simp [addSnap]
    have htake : (cursorOrder (addSnap s nm p ts).recs).take L.toNat
        = cursorOrder (addSnap s nm p ts).recs :=
      List.take_of_length_le (by omega)
    simp only [saveSnapshot, if_true, trimPass_zero]
    rw [htake]
    exact hperm

/-- Witness for C8: with limit 0 the single just-added record is deleted;
with limit 5 a one-record collection suffers no deletion. -/
theorem c8_eviction_witness :
    ((saveSnapshot 0 "a" 1 10 true ⟨[], 1⟩).2.recs = [])
    ∧ List.Perm (saveSnapshot 5 "a" 1 10 true ⟨[], 1⟩).2.recs (addSnap ⟨[], 1⟩ "a" 1 10).recs :=
  ⟨(c8_eviction_rank 0 "a" 1 10 ⟨[], 1⟩).2.1 (by decide),
   (c8_eviction_rank 5 "a" 1 10 ⟨[], 1⟩).2.2 (by decide)⟩

/-- Claim C9: getDB is idempotent and safe under concurrent callers — after
the first call from a fresh module state, every one of n + 1 successive
calls receives the very same promise (id 0) while exactly one platform
open is ever issued; and from any memoized state a getDB call returns the
memoized promise without touching the state. -/
theorem c9_memoized_open (n : Nat) (s : ConnState) (p : Nat) (h : s.dbPromise = some p) :
    ((runGetDB (n + 1) initConn).1 = List.replicate (n + 1) 0
      ∧ (runGetDB (n + 1) initConn).2.opens = 1)
    ∧ getDB s = (p, s) := by
  have hfirst : getDB initConn = (0, ⟨some 0, 1⟩) := rfl
  have hrest := runGetDB_memoized n ⟨some 0, 1⟩ 0 rfl
  refine ⟨⟨?_, ?_⟩, by simp [getDB, h]⟩
  · simp [runGetDB, hfirst, hrest, List.replicate_succ]
  · simp [runGetDB, hfirst, hrest]

/-- Witness for C9: three calls from the initial state all hand out promise
0 with a single platform open, and a memoized state echoes its promise. -/
theorem c9_memoized_witness :
    ((runGetDB 3 initConn).1 = List.replicate 3 0
      ∧ (runGetDB 3 initConn).2.opens = 1)
    ∧ getDB ⟨some 7, 1⟩ = (7, ⟨some 7, 1⟩) :=
  c9_memoized_open 2 ⟨some 7, 1⟩ 7 rfl

/-- Claim C10: a failed open stays memoized — with a rejected promise
stored in `dbPromise`, getDB returns that same promise without a new
platform open, every CRUD operation (via performTransaction) rejects with
the original failure, and clearDatabase resets the memoized handle to
null, after which the next getDB issues a fresh platform open. -/
theorem c10_failed_open_memoized (results : List (JSResult Unit)) (s : ConnState)
    (p : Nat) (e : String) (h : s.dbPromise = some p)
    (he : promiseOutcome results p = Except.error e) :
    getDB s = (p, s)
    ∧ (performTransaction results s).1 = Except.error e
    ∧ (clearDatabase s).dbPromise = none
    ∧ (getDB (clearDatabase s)).2.opens = s.opens + 1 := by
  have hg : getDB s = (p, s) := by simp [getDB, h]
  refine ⟨hg, ?_, rfl, rfl⟩
  simp [performTransaction, hg, he]

/-- Witness for C10 at a concrete rejected open. -/
theorem c10_failed_open_witness :
    getDB ⟨some 0, 1⟩ = (0, ⟨some 0, 1⟩)
    ∧ (performTransaction [Except.error "IndexedDB error"] ⟨some 0, 1⟩).1
        = Except.error "IndexedDB error"
    ∧ (clearDatabase ⟨some 0, 1⟩).dbPromise = none
    ∧ (getDB (clearDatabase ⟨some 0, 1⟩)).2.opens = 1 + 1 :=
  c10_failed_open_memoized [Except.error "IndexedDB error"] ⟨some 0, 1⟩ 0
    "IndexedDB error" rfl rfl

/-- Claim C2 counterexample: over a one-record collection, the promise of
the eviction phase settles at the null-cursor event (index 1 of the
trace), not at the transaction-completion event (index 2): the claim that
the call resolves only once the transaction reaches completion is false,
because resolve() in the cursor-done branch (db.js line 187 / 239) fires
first and later resolve calls are ignored. -/
theorem c2_resolution_counterexample :
    ¬ (firstResolve (evictTrace 1) = txCompleteIdx (evictTrace 1)) := by decide

/-- Claim C2 as amended: over a collection of n records, the eviction-phase
promise settles at the cursor-done event (index n), strictly before the
transaction-completion event (index n + 1) — the call resolves as soon as
the cursor has finished iterating, while the transaction's queued deletes
may still be uncommitted; the resolve attached to `oncomplete` fires only
after the promise is already settled. -/
theorem c2_resolution_amended (n : Nat) :
    firstResolve (evictTrace n) = some n
    ∧ txCompleteIdx (evictTrace n) = some (n + 1) := by
  induction n with
  | zero => exact ⟨rfl, rfl⟩
  | succ n ih =>
    rw [evictTrace_succ]
    refine ⟨?_, ?_⟩
    · simp [firstResolve, resolvesAt, ih.1]
    · simp [txCompleteIdx, ih.2]

/-- Claim C3 counterexample: with every manifest fetch succeeding except
the cross-origin CDN entry, `cache.addAll` rejects and stores nothing, yet
the install step still completes successfully — the trailing catch (sw.js
lines 30-33) swallows the rejection — leaving an unprimed cache for this
version. -/
theorem c3_install_counterexample :
    cdnDown "https://cdn.tailwindcss.com/" = false
    ∧ (installStep cdnDown).installOk = true
    ∧ (installStep cdnDown).cache = [] := by decide

/-- Claim C3 as amended: priming itself is all-or-nothing (a failing entry
leaves the cache empty, all entries succeeding stores the whole manifest),
but the install step completes successfully in both cases, because the
rejection of `cache.addAll` is caught and only logged; the controller can
therefore finish install with an incompletely primed cache. -/
theorem c3_install_amended (f : String → Bool) :
    (installStep f).installOk = true
    ∧ (urlsToCache.all f = true → (installStep f).cache = urlsToCache)
    ∧ (urlsToCache.all f = false → (installStep f).cache = []) := by
  unfold installStep cacheAddAll
  cases h : urlsToCache.all f <;> simp [h]

/-- Witness for the amended C3 at the two concrete fetch oracles. -/
theorem c3_install_witness :
    (installStep cdnDown).cache = []
    ∧ (installStep (fun _ => true)).cache = urlsToCache :=
  ⟨(c3_install_amended cdnDown).2.2 (by decide),
   (c3_install_amended (fun _ => true)).2.1 (by decide)⟩

/-- Claim C4: bulkAdd is all-or-nothing — when some listed item's key
collides with a record already in the collection, the failed add aborts
the enclosing transaction, the platform rolls back every add of the list
(the collection is exactly its prior contents, so none of the items is
present), and the call rejects. -/
theorem c4_bulkAdd_atomic (store items : List Item)
    (h : ∃ it ∈ items, hasKey store it.1 = true) :
    (∃ e, (bulkAdd store items).1 = Except.error e)
    ∧ (bulkAdd store items).2 = store := by
  obtain ⟨e, he⟩ := bulkAddRun_error items store h
  unfold bulkAdd
  rw [he]
  exact ⟨⟨"ConstraintError", rfl⟩, rfl⟩

/-- Witness for C4: in `bulkAdd([a, b, c])` where b collides with the one
existing record, the call rejects and the collection still holds exactly
the prior record. -/
theorem c4_bulkAdd_witness :
    (∃ e, (bulkAdd [(1, 10)] [(2, 0), (1, 0), (3, 0)]).1 = Except.error e)
    ∧ (bulkAdd [(1, 10)] [(2, 0), (1, 0), (3, 0)]).2 = [(1, 10)] :=
  c4_bulkAdd_atomic [(1, 10)] [(2, 0), (1, 0), (3, 0)] (by decide)

/-- Claim C5 counterexample: the fetch handler's guard is a textual
prefix test, not an origin test.  The URL
"https://cdn.tailwindcss.community/x" lives on an origin that is neither
the application origin nor the allow-listed host, yet it is not passed
through (its text starts with "https://cdn.tailwindcss.com"), so the
claimed equivalence between pass-through and foreign origin fails. -/
theorem c5_guard_counterexample :
    ¬ (passesThrough appOrigin sneakyUrl = true
        ↔ (originMatches appOrigin sneakyUrl = false
            ∧ originMatches twCdn sneakyUrl = false)) := by decide

/-- Claim C5 as amended: a request is passed through untouched exactly when
its URL starts with neither the application origin string nor the literal
"https://cdn.tailwindcss.com"; every request passed through is genuinely of
a foreign, non-allow-listed origin, but the converse fails for foreign
origins whose URL text merely extends one of the two prefixes — those are
intercepted. -/
theorem c5_guard_amended (o url : String) :
    (passesThrough o url = true
      ↔ (jsStartsWith url o = false ∧ jsStartsWith url twCdn = false))
    ∧ (passesThrough o url = true
      → originMatches o url = false ∧ originMatches twCdn url = false) := by
  have hiff : passesThrough o url = true
      ↔ (jsStartsWith url o = false ∧ jsStartsWith url twCdn = false) := by
    simp [passesThrough, Bool.not_eq_true']
  refine ⟨hiff, fun hp => ?_⟩
  obtain ⟨h1, h2⟩ := hiff.mp hp
  exact ⟨originMatches_false_of o url h1, originMatches_false_of twCdn url h2⟩

/-- Witness for the amended C5 at a passed-through foreign request. -/
theorem c5_guard_witness :
    originMatches appOrigin "https://other.example/x" = false
    ∧ originMatches twCdn "https://other.example/x" = false :=
  (c5_guard_amended appOrigin "https://other.example/x").2 (by decide)

/-- Claim C6 counterexample: two records sharing one timestamp (legal: the
index is non-unique and the clock is coarse) make the output of
getAllSavedStates not strictly descending in timestamp, so "ordered by
timestamp strictly descending" fails. -/
theorem c6_sorted_counterexample :
    ¬ List.Pairwise (fun a b => b.timestamp < a.timestamp)
        (getAllSavedStates tieStore) := by decide

/-- Claim C6 as amended: for every store state, getAllSavedStates and
getAllSavedParking return exactly the stored records (a permutation — the
sort is a read-time view that neither drops, duplicates nor modifies
records) ordered by timestamp weakly descending, newest first, with ties
possible. -/
theorem c6_sorted_amended (s : SnapStore) :
    (List.Perm (getAllSavedStates s) s.recs
      ∧ List.Pairwise (fun a b => b.timestamp ≤ a.timestamp) (getAllSavedStates s))
    ∧ (List.Perm (getAllSavedParking s) s.recs
      ∧ List.Pairwise (fun a b => b.timestamp ≤ a.timestamp) (getAllSavedParking s)) :=
  ⟨⟨sortTsDesc_perm s.recs, sortTsDesc_pairwise s.recs⟩,
   ⟨sortTsDesc_perm s.recs, sortTsDesc_pairwise s.recs⟩⟩

end CarApp
